import Mathlib

/-
Verification of the iteration state machine and the sandboxed
execution/result-parsing layer of the multi-agent refactoring pipeline.

The embedding mirrors, in order:
  * src/tools/files_tools.py   (_validate_path, read_file, write_file)
  * src/tools/pytest_tools.py  (run_pytest and its output parsing)
  * main.py                    (RefactorState, auditor/fixer/judge nodes,
                                should_continue, the LangGraph driving loop)

Paths are modelled in resolved absolute form: a drive (empty on POSIX)
plus the list of path segments.  os.path.commonpath on two absolute
paths of the same drive returns the longest common segment prefix and
raises ValueError when the drives differ; both behaviours are modelled.
Subprocess execution and LLM calls are oracles passed in as arguments.
-/

structure AbsPath where
  drive : String
  segs : List String
deriving DecidableEq, Repr

/-- Longest common segment prefix, as computed by os.path.commonpath. -/
def commonPrefixSegs : List String → List String → List String
  | x :: xs, y :: ys => if x = y then x :: commonPrefixSegs xs ys else []
  | _, _ => []

/-- os.path.commonpath([a, b]) on absolute paths: ValueError (error) when the
drives differ, otherwise the common segment prefix. -/
def commonpath (a b : AbsPath) : Except String AbsPath :=
  if a.drive = b.drive then
    Except.ok ⟨a.drive, commonPrefixSegs a.segs b.segs⟩
  else
    Except.error "ValueError: paths are on different drives"

/-- files_tools._validate_path, after both the sandbox root and the input
path have been resolved to absolute form.  Returns the absolute path when
the common path equals the sandbox root, otherwise raises (models the two
ValueError sites: drive mismatch caught from commonpath, and the
outside-sandbox check). -/
def _validate_path (sandbox_root : AbsPath) (abs_path : AbsPath) : Except String AbsPath :=
  match commonpath sandbox_root abs_path with
  | Except.error _ =>
      Except.error "Security Error: path is on a different drive than sandbox"
  | Except.ok common =>
      if common = sandbox_root then Except.ok abs_path
      else Except.error "Security Error: access denied (outside sandbox)"

/-- The path is the sandbox root or a descendant of it: same drive and the
root segments are a segment-wise prefix. -/
def isInside (root p : AbsPath) : Bool :=
  decide (root.drive = p.drive) && root.segs.isPrefixOf p.segs

/-- os.path.abspath "sandbox": the relative name joined onto the current
working directory.  _validate_path recomputes this on every call. -/
def sandbox_root_of (cwd : AbsPath) : AbsPath :=
  ⟨cwd.drive, cwd.segs ++ ["sandbox"]⟩

/-- Guard as actually invoked: the sandbox root is derived from the
current working directory at call time. -/
def validateFromCwd (cwd p : AbsPath) : Except String AbsPath :=
  _validate_path (sandbox_root_of cwd) p

def exOk : Except String AbsPath → Bool
  | Except.ok _ => true
  | Except.error _ => false

/- ----------------------------------------------------------------- -/
/- Confined file store (files_tools.read_file / write_file).         -/
/- The filesystem is a list of (path, content) cells, newest first,  -/
/- plus the set of directories that exist.                           -/
/- ----------------------------------------------------------------- -/

structure FS where
  files : List (AbsPath × String)
  dirs : List AbsPath
deriving DecidableEq, Repr

def lookupIn : List (AbsPath × String) → AbsPath → Option String
  | [], _ => none
  | e :: rest, p => if e.1 = p then some e.2 else lookupIn rest p

def lookupFile (fs : FS) (p : AbsPath) : Option String :=
  lookupIn fs.files p

/-- os.path.dirname on a resolved absolute path. -/
def parentOf (p : AbsPath) : AbsPath :=
  ⟨p.drive, p.segs.dropLast⟩

/-- All segment prefixes of a segment list, shortest first. -/
def prefixesOf : List String → List (List String)
  | [] => [[]]
  | s :: rest => [] :: (prefixesOf rest).map (fun ss => s :: ss)

/-- os.makedirs(d, exist_ok=True): the directory and all its ancestors
exist afterwards. -/
def makedirs (fs : FS) (d : AbsPath) : FS :=
  { fs with dirs := fs.dirs ++ (prefixesOf d.segs).map (fun ss => AbsPath.mk d.drive ss) }

/-- open(path, "w").write(content): overwrite semantics. -/
def writeFS (fs : FS) (p : AbsPath) (c : String) : FS :=
  { fs with files := (p, c) :: fs.files }

/-- Rendering of a path into error-message text (str of the path). -/
def renderPath (p : AbsPath) : String :=
  p.drive ++ "/" ++ String.intercalate "/" p.segs

/-- files_tools.read_file: validate, open and read; ANY exception
(sandbox violation, missing file, decode error) is caught and the
function returns the empty string. -/
def read_file (root : AbsPath) (fs : FS) (p : AbsPath) : String :=
  match _validate_path root p with
  | Except.error _ => ""
  | Except.ok safe =>
      match lookupFile fs safe with
      | some c => c
      | none => ""

/-- files_tools.write_file: validate, makedirs on the parent, write.
`ioFault` is the oracle for the open/write step raising an OSError
(some msg = the exception text).  Any exception, including the guard
ValueError, is caught and stringified into the returned outcome;
quote characters of the Python f-string are elided. -/
def write_file (root : AbsPath) (ioFault : Option String) (fs : FS)
    (p : AbsPath) (content : String) : String × FS :=
  match _validate_path root p with
  | Except.error e =>
      ("Error writing file " ++ renderPath p ++ ": " ++ e, fs)
  | Except.ok safe =>
      let fs1 := makedirs fs (parentOf safe)
      match ioFault with
      | some msg => ("Error writing file " ++ renderPath p ++ ": " ++ msg, fs1)
      | none => ("Success", writeFS fs1 safe content)

/- Concrete sample paths used by witnesses. -/

def sRoot : AbsPath := ⟨"", ["repo", "sandbox"]⟩

def sFile : AbsPath := ⟨"", ["repo", "sandbox", "test_calc.py"]⟩

def emptyFS : FS := ⟨[], []⟩

def allOnDisk : AbsPath → Bool := fun _ => true

/- ----------------------------------------------------------------- -/
/- Test result parsing (pytest_tools.run_pytest).                    -/
/- ----------------------------------------------------------------- -/

/- String primitives, re-implemented by structural recursion over the
character list so that every definition evaluates inside the kernel
(the iterator-based core versions do not reduce definitionally).  Each
mirrors the Python primitive named in its comment. -/

/-- Occurrence test behind Python `needle in s`. -/
def infixOf (needle : List Char) : List Char → Bool
  | [] => needle.isEmpty
  | c :: rest => needle.isPrefixOf (c :: rest) || infixOf needle rest

def strContains (s needle : String) : Bool :=
  infixOf needle.data s.data

/-- Python s.split(sep) on character lists, fuelled by the input length
(one unit per character consumed, so fuel = length always suffices). -/
def splitFuel (sep : List Char) : Nat → List Char → List (List Char)
  | _, [] => [[]]
  | 0, l => [l]
  | fuel + 1, c :: rest =>
      if sep.isPrefixOf (c :: rest) then
        [] :: splitFuel sep fuel ((c :: rest).drop sep.length)
      else
        match splitFuel sep fuel rest with
        | piece :: pieces => (c :: piece) :: pieces
        | [] => [[c]]

/-- Python s.split(sep): non-overlapping left-to-right splitting with
empty pieces kept. -/
def pySplit (s sep : String) : List String :=
  if sep.data.isEmpty then [s]
  else (splitFuel sep.data s.data.length s.data).map (fun cs => String.mk cs)

/-- Python s.split() (no separator): whitespace-run tokenisation with
empty tokens dropped; the second argument is the current token,
reversed. -/
def wsTokens : List Char → List Char → List (List Char)
  | [], acc => if acc.isEmpty then [] else [acc.reverse]
  | c :: rest, acc =>
      if c.isWhitespace then
        if acc.isEmpty then wsTokens rest [] else acc.reverse :: wsTokens rest []
      else wsTokens rest (c :: acc)

def pyTokens (s : String) : List String :=
  (wsTokens s.data []).map (fun cs => String.mk cs)

/-- Python s.strip() = '' : the line is all whitespace. -/
def isBlank (s : String) : Bool :=
  s.data.all (fun c => c.isWhitespace)

/-- Python s.strip(). -/
def pyStrip (s : String) : String :=
  String.mk (((s.data.dropWhile Char.isWhitespace).reverse.dropWhile
    Char.isWhitespace).reverse)

/-- Python s.startswith(pre). -/
def pyStartsWith (s pre : String) : Bool :=
  pre.data.isPrefixOf s.data

/-- Python s.lower(). -/
def pyLower (s : String) : String :=
  String.mk (s.data.map Char.toLower)

/-- Python s[:n]. -/
def pyTake (s : String) (n : Nat) : String :=
  String.mk (s.data.take n)

/-- Python "sep".join(parts). -/
def joinWith (sep : String) : List String → String
  | [] => ""
  | [x] => x
  | x :: xs => x ++ sep ++ joinWith sep xs

def digitsVal : List Char → Nat → Nat
  | [], acc => acc
  | c :: cs, acc => digitsVal cs (acc * 10 + (c.toNat - 48))

/-- Python `t.isdigit()` guard followed by `int(t)`. -/
def pyToNat (t : String) : Option Nat :=
  if !t.data.isEmpty && t.data.all Char.isDigit then some (digitsVal t.data 0)
  else none

/-- Python fragment `parts = text.strip().split(); if parts and
parts[-1].isdigit(): int(parts[-1])`. -/
def parseTrailingNum (text : String) : Option Nat :=
  match (pyTokens text).getLast? with
  | some t => pyToNat t
  | none => none

/-- The summary scan of run_pytest: every line containing "passed" or
"failed" may overwrite the respective count with the number that
immediately precedes the token (later lines win). -/
def scanCounts (lines : List String) : Nat × Nat :=
  lines.foldl
    (fun acc line =>
      if strContains line "passed" || strContains line "failed" then
        let acc1 :=
          if strContains line "passed" then
            match parseTrailingNum ((pySplit line "passed").headD "") with
            | some n => (n, acc.2)
            | none => acc
          else acc
        if strContains line "failed" then
          match parseTrailingNum ((pySplit line "failed").headD "") with
          | some n => (acc1.1, n)
          | none => acc1
        else acc1
      else acc)
    (0, 0)

/-- Failure-block extraction loop of run_pytest.  State: remaining lines,
in_failure flag, current buffer, accumulated blocks.  A line containing
"FAILED" and "::test_" opens a block (flushing any previous buffer);
detail lines extend it; a blank line after more than one buffered line
closes it; a `=`-prefixed line appends the buffer and breaks out of the
loop — after which the post-loop flush appends the SAME still-nonempty
buffer a second time, exactly as the Python does.  A trailing buffer is
flushed at end of input. -/
def parseFailGo : List String → Bool → List String → List String → List String
  | [], _, buf, acc =>
      if buf.isEmpty then acc else acc ++ [joinWith "\n" buf]
  | line :: rest, inF, buf, acc =>
      if strContains line "FAILED" && strContains line "::test_" then
        parseFailGo rest true [line]
          (if buf.isEmpty then acc else acc ++ [joinWith "\n" buf])
      else if inF then
        if pyStartsWith line "E " || strContains line "AssertionError" ||
            strContains line "Error:" then
          parseFailGo rest true (buf ++ [line]) acc
        else if isBlank line && buf.length > 1 then
          parseFailGo rest false [] (acc ++ [joinWith "\n" buf])
        else if pyStartsWith line "=" then
          if buf.isEmpty then acc
          else (acc ++ [joinWith "\n" buf]) ++ [joinWith "\n" buf]
        else parseFailGo rest inF buf acc
      else parseFailGo rest false buf acc

def parseFailures (lines : List String) : List String :=
  parseFailGo lines false [] []

/-- Oracle for `subprocess.run`: normal completion with a return code and
the two captured streams, a TimeoutExpired carrying the output produced
before expiry (which the Python code never reads), or any other
exception. -/
inductive ProcResult where
  | completed (returncode : Int) (stdout : String) (stderr : String)
  | timedOut (capturedOut : String)
  | raised (msg : String)
deriving DecidableEq, Repr

/-- The result dict of run_pytest. -/
structure PytestResult where
  passed : Bool
  total_tests : Nat
  passed_tests : Nat
  failed_tests : Nat
  failures : List String
  output : String
  success : Bool
  error : String
deriving DecidableEq, Repr

def initPytestResult : PytestResult :=
  { passed := false, total_tests := 0, passed_tests := 0, failed_tests := 0,
    failures := [], output := "", success := false, error := "" }

/-- pytest_tools.run_pytest.  `onDisk` is the os.path.exists oracle and
`proc` the subprocess oracle.  The guard ValueError falls into the
generic `except Exception` handler; on TimeoutExpired the handler
appends the timeout marker to result["output"], which is still the
empty initial value at that point — the exception's captured partial
output is ignored. -/
def run_pytest (root : AbsPath) (onDisk : AbsPath → Bool) (proc : ProcResult)
    (file_path : AbsPath) : PytestResult :=
  match _validate_path root file_path with
  | Except.error e =>
      { initPytestResult with
        error := e,
        output := initPytestResult.output ++ "\nError: " ++ e }
  | Except.ok safe =>
      if !onDisk safe then
        { initPytestResult with error := "File not found: " ++ renderPath file_path }
      else
        match proc with
        | ProcResult.timedOut _capturedOut =>
            { initPytestResult with
              error := "Pytest execution timed out",
              output := initPytestResult.output ++ "\nTimeout reached." }
        | ProcResult.raised msg =>
            { initPytestResult with
              error := msg,
              output := initPytestResult.output ++ "\nError: " ++ msg }
        | ProcResult.completed rc out err =>
            let output := out ++ "\n" ++ err
            let lines := pySplit output "\n"
            let counts := scanCounts lines
            let total := counts.1 + counts.2
            { passed := decide (rc = 0) && decide (counts.2 = 0) && decide (total > 0),
              total_tests := total, passed_tests := counts.1, failed_tests := counts.2,
              failures := parseFailures lines, output := output,
              success := true, error := "" }

/- ----------------------------------------------------------------- -/
/- Iteration state machine (main.py).                                -/
/- ----------------------------------------------------------------- -/

inductive Status where
  | in_progress
  | success
  | retry
  | max_iterations
deriving DecidableEq, Repr

/-- RefactorState of main.py.  `file_path` is kept in resolved absolute
form; the Optional fields start as None. -/
structure RefactorState where
  file_path : AbsPath
  original_code : String
  issues_found : Option String
  fixed_code : Option String
  test_results : Option String
  iteration : Nat
  status : Status
deriving DecidableEq, Repr

/-- main.process_file initial state. -/
def initial_state (fp : AbsPath) (orig : String) : RefactorState :=
  { file_path := fp, original_code := orig, issues_found := none,
    fixed_code := none, test_results := none, iteration := 1,
    status := Status.in_progress }

/-- main.extract_code_from_markdown. -/
def extract_code_from_markdown (response : String) : String :=
  if strContains response "```python" then
    match pySplit response "```python" with
    | _ :: second :: _ => pyStrip ((pySplit second "```").headD "")
    | _ => pyStrip response
  else if strContains response "```" then
    let parts := pySplit response "```"
    if parts.length ≥ 3 then pyStrip ((parts.get? 1).getD "")
    else pyStrip response
  else pyStrip response

/-- main.auditor_node: the LLM call is the oracle; on success the report
becomes issues_found, on an exception the error-marker string does. -/
def auditor_node (llm : Except String String) (st : RefactorState) : RefactorState :=
  match llm with
  | Except.ok report => { st with issues_found := some report }
  | Except.error e => { st with issues_found := some ("ERROR: Analysis failed - " ++ e) }

/-- main.fixer_node: on an LLM exception nothing is touched; on success
the markdown-stripped code is written through the confined store and
fixed_code is updated only when the write reported "Success". -/
def fixer_node (root : AbsPath) (ioFault : Option String) (llm : Except String String)
    (st : RefactorState) (fs : FS) : RefactorState × FS :=
  match llm with
  | Except.error _ => (st, fs)
  | Except.ok response =>
      let fixed_code := extract_code_from_markdown response
      let wres := write_file root ioFault fs st.file_path fixed_code
      if strContains wres.1 "Success" then
        ({ st with fixed_code := some fixed_code }, wres.2)
      else
        (st, wres.2)

/-- What phase 2 of main.judge_node observes: either the parsed pytest
result or an exception raised while running the tests. -/
inductive JudgeOutcome where
  | result (r : PytestResult)
  | raised (msg : String)
deriving DecidableEq, Repr

def outcomePassed : JudgeOutcome → Bool
  | JudgeOutcome.result r => r.passed
  | JudgeOutcome.raised _ => false

/-- Verdict section of main.judge_node (lines 374-415): the state update
performed after running pytest on the test file. -/
def judge_node (o : JudgeOutcome) (st : RefactorState) : RefactorState :=
  match o with
  | JudgeOutcome.raised e =>
      { st with
        test_results := some ("Test execution error: " ++ e),
        status := if st.iteration < 10 then Status.retry else Status.max_iterations }
  | JudgeOutcome.result r =>
      if r.total_tests = 0 then
        let lower := pyLower r.output
        let importErr := strContains lower "import" || strContains lower "importerror" ||
          strContains lower "modulenotfounderror"
        let tr :=
          if importErr then
            "IMPORT ERROR - Check test file imports match source file function names:\n" ++
              pyTake r.output 500
          else "No tests collected - possible import error"
        { st with
          test_results := some tr,
          status := if st.iteration < 10 then Status.retry else Status.max_iterations }
      else if r.passed then
        { st with
          test_results := some ("All " ++ toString r.total_tests ++ " tests passed"),
          status := Status.success }
      else
        { st with
          test_results := some ("Failed " ++ toString r.failed_tests ++ "/" ++
            toString r.total_tests ++ " tests:\n" ++
            joinWith "\n" (r.failures.take 5)),
          status := if st.iteration < 10 then Status.retry else Status.max_iterations }

inductive NextStep where
  | fixer
  | stop
deriving DecidableEq, Repr

/-- main.should_continue: on "retry" bump the iteration counter and loop
back to the fixer; otherwise (success or max_iterations) end. -/
def should_continue (st : RefactorState) : NextStep × RefactorState :=
  if st.status = Status.retry then
    (NextStep.fixer, { st with iteration := st.iteration + 1 })
  else
    (NextStep.stop, st)

/-- One fixer→judge traversal of the graph: the judge always runs after
the fixer (the fixer→judge edge is unconditional). -/
def pipelineCycle (root : AbsPath) (ioFault : Option String)
    (llm : Except String String) (o : JudgeOutcome)
    (st : RefactorState) (fs : FS) : RefactorState × FS :=
  let step := fixer_node root ioFault llm st fs
  (judge_node o step.1, step.2)

/-- The compiled LangGraph loop after the auditor: repeatedly fixer, then
judge, then should_continue, until the latter says stop.  `k` numbers the
Mutate/Validate cycles; the oracles are indexed by cycle.  Returns the
final state, the final filesystem, and the number of cycles executed.
`fuel` only caps the recursion; every theorem below supplies enough. -/
def runLoop (root : AbsPath) (ios : Nat → Option String)
    (llms : Nat → Except String String) (outs : Nat → JudgeOutcome) :
    Nat → Nat → RefactorState → FS → RefactorState × FS × Nat
  | 0, k, st, fs => (st, fs, k)
  | fuel + 1, k, st, fs =>
      let st1 := (fixer_node root (ios k) (llms k) st fs).1
      let fs1 := (fixer_node root (ios k) (llms k) st fs).2
      let st2 := judge_node (outs k) st1
      match should_continue st2 with
      | (NextStep.fixer, st3) => runLoop root ios llms outs fuel (k + 1) st3 fs1
      | (NextStep.stop, st3) => (st3, fs1, k + 1)

/-- A validation outcome whose tests ran and failed. -/
def failingOutcome : PytestResult :=
  { passed := false, total_tests := 1, passed_tests := 0, failed_tests := 1,
    failures := ["FAILED t.py::test_a"], output := "1 failed", success := true,
    error := "" }

/-- A validation outcome whose tests all passed. -/
def passingOutcome : PytestResult :=
  { passed := true, total_tests := 1, passed_tests := 1, failed_tests := 0,
    failures := [], output := "1 passed", success := true, error := "" }

/-- Validation fails on the first two attempts and passes from the third
on. -/
def passOnThird : Nat → JudgeOutcome := fun n =>
  if n < 2 then JudgeOutcome.result failingOutcome
  else JudgeOutcome.result passingOutcome

/- ----------------------------------------------------------------- -/
/- Helper lemmas.                                                    -/
/- ----------------------------------------------------------------- -/

theorem commonPrefixSegs_eq_left (a : List String) :
    ∀ b, commonPrefixSegs a b = a ↔ a.isPrefixOf b = true := by
  induction a with
  | nil =>
      intro b
      cases b <;> simp [commonPrefixSegs, List.isPrefixOf]
  | cons x xs ih =>
      intro b
      cases b with
      | nil => simp [commonPrefixSegs, List.isPrefixOf]
      | cons y ys =>
          by_cases h : x = y
          · subst h
            simp [commonPrefixSegs, List.isPrefixOf, ih]
          · simp [commonPrefixSegs, List.isPrefixOf, h]

theorem validate_ok_of_inside (root p : AbsPath) (h : isInside root p = true) :
    _validate_path root p = Except.ok p := by
  unfold isInside at h
  simp only [Bool.and_eq_true, decide_eq_true_eq] at h
  obtain ⟨hd, hpre⟩ := h
  have hc : commonPrefixSegs root.segs p.segs = root.segs :=
    (commonPrefixSegs_eq_left _ _).mpr hpre
  unfold _validate_path commonpath
  rw [if_pos hd]
  simp [hc]

theorem validate_err_of_not_inside (root p : AbsPath) (h : isInside root p = false) :
    ∃ e, _validate_path root p = Except.error e := by
  unfold _validate_path commonpath
  by_cases hd : root.drive = p.drive
  · rw [if_pos hd]
    have hpre : root.segs.isPrefixOf p.segs = false := by
      unfold isInside at h
      simpa [hd] using h
    have hc : commonPrefixSegs root.segs p.segs ≠ root.segs := by
      intro hc
      rw [(commonPrefixSegs_eq_left _ _).mp hc] at hpre
      exact absurd hpre (by decide)
    have hne : AbsPath.mk root.drive (commonPrefixSegs root.segs p.segs) ≠ root := by
      intro he
      exact hc (congrArg AbsPath.segs he)
    simp [hne]
  · rw [if_neg hd]
    exact ⟨_, rfl⟩

theorem self_mem_prefixesOf : ∀ l : List String, l ∈ prefixesOf l := by
  intro l
  induction l with
  | nil => simp [prefixesOf]
  | cons s rest ih =>
      simp only [prefixesOf, List.mem_cons, List.mem_map]
      exact Or.inr ⟨rest, ih, rfl⟩

theorem parent_mem_makedirs (fs : FS) (d : AbsPath) : d ∈ (makedirs fs d).dirs := by
  unfold makedirs
  simp only [List.mem_append, List.mem_map]
  exact Or.inr ⟨d.segs, self_mem_prefixesOf d.segs, rfl⟩

theorem run_pytest_guard_error_eq (root : AbsPath) (onDisk : AbsPath → Bool)
    (proc : ProcResult) (p : AbsPath) (e : String)
    (hv : _validate_path root p = Except.error e) :
    run_pytest root onDisk proc p =
      { initPytestResult with
        error := e, output := initPytestResult.output ++ "\nError: " ++ e } := by
  unfold run_pytest
  rw [hv]

theorem run_pytest_notfound_eq (root : AbsPath) (onDisk : AbsPath → Bool)
    (proc : ProcResult) (p safe : AbsPath)
    (hv : _validate_path root p = Except.ok safe) (hd : onDisk safe = false) :
    run_pytest root onDisk proc p =
      { initPytestResult with error := "File not found: " ++ renderPath p } := by
  unfold run_pytest
  rw [hv]
  simp [hd]

theorem run_pytest_timeout_eq (root : AbsPath) (onDisk : AbsPath → Bool)
    (capturedOut : String) (p safe : AbsPath)
    (hv : _validate_path root p = Except.ok safe) (hd : onDisk safe = true) :
    run_pytest root onDisk (ProcResult.timedOut capturedOut) p =
      { initPytestResult with
        error := "Pytest execution timed out",
        output := initPytestResult.output ++ "\nTimeout reached." } := by
  unfold run_pytest
  rw [hv]
  simp [hd]

theorem run_pytest_raised_eq (root : AbsPath) (onDisk : AbsPath → Bool)
    (msg : String) (p safe : AbsPath)
    (hv : _validate_path root p = Except.ok safe) (hd : onDisk safe = true) :
    run_pytest root onDisk (ProcResult.raised msg) p =
      { initPytestResult with
        error := msg, output := initPytestResult.output ++ "\nError: " ++ msg } := by
  unfold run_pytest
  rw [hv]
  simp [hd]

theorem run_pytest_completed_eq (root : AbsPath) (onDisk : AbsPath → Bool)
    (rc : Int) (out err : String) (p safe : AbsPath)
    (hv : _validate_path root p = Except.ok safe) (hd : onDisk safe = true) :
    run_pytest root onDisk (ProcResult.completed rc out err) p =
      { passed := decide (rc = 0) &&
          decide ((scanCounts (pySplit (out ++ "\n" ++ err) "\n")).2 = 0) &&
          decide ((scanCounts (pySplit (out ++ "\n" ++ err) "\n")).1 +
            (scanCounts (pySplit (out ++ "\n" ++ err) "\n")).2 > 0),
        total_tests := (scanCounts (pySplit (out ++ "\n" ++ err) "\n")).1 +
          (scanCounts (pySplit (out ++ "\n" ++ err) "\n")).2,
        passed_tests := (scanCounts (pySplit (out ++ "\n" ++ err) "\n")).1,
        failed_tests := (scanCounts (pySplit (out ++ "\n" ++ err) "\n")).2,
        failures := parseFailures (pySplit (out ++ "\n" ++ err) "\n"),
        output := out ++ "\n" ++ err, success := true, error := "" } := by
  unfold run_pytest
  rw [hv]
  simp [hd]

theorem fixer_preserves_ctrl (root : AbsPath) (ioF : Option String)
    (llm : Except String String) (st : RefactorState) (fs : FS) :
    (fixer_node root ioF llm st fs).1.iteration = st.iteration ∧
    (fixer_node root ioF llm st fs).1.status = st.status := by
  cases llm with
  | error e => exact ⟨rfl, rfl⟩
  | ok r =>
      simp only [fixer_node]
      split <;> exact ⟨rfl, rfl⟩

theorem judge_preserves_iteration (o : JudgeOutcome) (st : RefactorState) :
    (judge_node o st).iteration = st.iteration := by
  cases o with
  | raised e => rfl
  | result r =>
      simp only [judge_node]
      split
      · rfl
      · split <;> rfl

theorem judge_status_of_notPassed (o : JudgeOutcome) (st : RefactorState)
    (h : outcomePassed o = false) :
    (judge_node o st).status =
      (if st.iteration < 10 then Status.retry else Status.max_iterations) := by
  cases o with
  | raised e => rfl
  | result r =>
      have hp : r.passed = false := h
      simp only [judge_node]
      split
      · rfl
      · simp [hp]

theorem judge_status_of_passed (r : PytestResult) (st : RefactorState)
    (h0 : r.total_tests ≠ 0) (hp : r.passed = true) :
    (judge_node (JudgeOutcome.result r) st).status = Status.success := by
  simp only [judge_node]
  rw [if_neg h0]
  simp [hp]

theorem should_continue_retry (st : RefactorState) (h : st.status = Status.retry) :
    should_continue st = (NextStep.fixer, { st with iteration := st.iteration + 1 }) := by
  simp [should_continue, h]

theorem should_continue_stop (st : RefactorState) (h : st.status ≠ Status.retry) :
    should_continue st = (NextStep.stop, st) := by
  simp [should_continue, h]

theorem runLoop_step_stop (root : AbsPath) (ios : Nat → Option String)
    (llms : Nat → Except String String) (outs : Nat → JudgeOutcome)
    (fuel k : Nat) (st : RefactorState) (fs : FS)
    (h : (judge_node (outs k) (fixer_node root (ios k) (llms k) st fs).1).status ≠
      Status.retry) :
    runLoop root ios llms outs (fuel + 1) k st fs =
      (judge_node (outs k) (fixer_node root (ios k) (llms k) st fs).1,
       (fixer_node root (ios k) (llms k) st fs).2, k + 1) := by
  have hsc := should_continue_stop _ h
  show (match should_continue (judge_node (outs k)
          (fixer_node root (ios k) (llms k) st fs).1) with
        | (NextStep.fixer, st3) =>
            runLoop root ios llms outs fuel (k + 1) st3
              (fixer_node root (ios k) (llms k) st fs).2
        | (NextStep.stop, st3) =>
            (st3, (fixer_node root (ios k) (llms k) st fs).2, k + 1)) = _
  rw [hsc]

theorem runLoop_step_retry (root : AbsPath) (ios : Nat → Option String)
    (llms : Nat → Except String String) (outs : Nat → JudgeOutcome)
    (fuel k : Nat) (st : RefactorState) (fs : FS)
    (h : (judge_node (outs k) (fixer_node root (ios k) (llms k) st fs).1).status =
      Status.retry) :
    runLoop root ios llms outs (fuel + 1) k st fs =
      runLoop root ios llms outs fuel (k + 1)
        { judge_node (outs k) (fixer_node root (ios k) (llms k) st fs).1 with
          iteration :=
            (judge_node (outs k) (fixer_node root (ios k) (llms k) st fs).1).iteration + 1 }
        (fixer_node root (ios k) (llms k) st fs).2 := by
  have hsc := should_continue_retry _ h
  show (match should_continue (judge_node (outs k)
          (fixer_node root (ios k) (llms k) st fs).1) with
        | (NextStep.fixer, st3) =>
            runLoop root ios llms outs fuel (k + 1) st3
              (fixer_node root (ios k) (llms k) st fs).2
        | (NextStep.stop, st3) =>
            (st3, (fixer_node root (ios k) (llms k) st fs).2, k + 1)) = _
  rw [hsc]

/-- With never-passing validation outcomes, starting j retries away from
the ceiling, the loop performs exactly j + 1 further cycles and ends at
iteration 10 with max_iterations. -/
theorem runLoop_all_fail (root : AbsPath) (ios : Nat → Option String)
    (llms : Nat → Except String String) (outs : Nat → JudgeOutcome)
    (hfail : ∀ n, outcomePassed (outs n) = false) :
    ∀ (j : Nat), j ≤ 9 → ∀ fuel k st fs, j + 1 ≤ fuel → st.iteration = 10 - j →
      (runLoop root ios llms outs fuel k st fs).1.iteration = 10 ∧
      (runLoop root ios llms outs fuel k st fs).1.status = Status.max_iterations ∧
      (runLoop root ios llms outs fuel k st fs).2.2 = k + (j + 1) := by
  intro j
  induction j with
  | zero =>
      intro _ fuel k st fs hfu hit
      obtain ⟨f, rfl⟩ : ∃ f, fuel = f + 1 := ⟨fuel - 1, by omega⟩
      have hit1 : (fixer_node root (ios k) (llms k) st fs).1.iteration = 10 := by
        rw [(fixer_preserves_ctrl root (ios k) (llms k) st fs).1, hit]
      have hs2 : (judge_node (outs k)
          (fixer_node root (ios k) (llms k) st fs).1).status = Status.max_iterations := by
        rw [judge_status_of_notPassed _ _ (hfail k), hit1]
        simp
      rw [runLoop_step_stop root ios llms outs f k st fs (by simp [hs2])]
      refine ⟨?_, hs2, rfl⟩
      rw [judge_preserves_iteration, hit1]
  | succ j ih =>
      intro hj fuel k st fs hfu hit
      obtain ⟨f, rfl⟩ : ∃ f, fuel = f + 1 := ⟨fuel - 1, by omega⟩
      have hit1 : (fixer_node root (ios k) (llms k) st fs).1.iteration = 10 - (j + 1) := by
        rw [(fixer_preserves_ctrl root (ios k) (llms k) st fs).1, hit]
      have hs2 : (judge_node (outs k)
          (fixer_node root (ios k) (llms k) st fs).1).status = Status.retry := by
        rw [judge_status_of_notPassed _ _ (hfail k), hit1, if_pos (by omega)]
      rw [runLoop_step_retry root ios llms outs f k st fs hs2]
      have hx : (judge_node (outs k)
          (fixer_node root (ios k) (llms k) st fs).1).iteration = 10 - (j + 1) := by
        rw [judge_preserves_iteration, hit1]
      have hnext : ({ judge_node (outs k) (fixer_node root (ios k) (llms k) st fs).1 with
          iteration :=
            (judge_node (outs k)
              (fixer_node root (ios k) (llms k) st fs).1).iteration + 1 } :
          RefactorState).iteration = 10 - j := by
        show (judge_node (outs k)
          (fixer_node root (ios k) (llms k) st fs).1).iteration + 1 = 10 - j
        rw [hx]
        omega
      have hres := ih (by omega) f (k + 1) _ ((fixer_node root (ios k) (llms k) st fs).2)
        (by omega) hnext
      refine ⟨hres.1, hres.2.1, ?_⟩
      rw [hres.2.2]
      omega

/-- With validation failing on the first m cycles (counted from k) and
passing on cycle k + m, the loop performs exactly m + 1 further cycles,
ends with success, and the iteration counter has been bumped exactly m
times. -/
theorem runLoop_pass_at (root : AbsPath) (ios : Nat → Option String)
    (llms : Nat → Except String String) (outs : Nat → JudgeOutcome) :
    ∀ (m k fuel : Nat) (st : RefactorState) (fs : FS),
      (∀ i, i < m → outcomePassed (outs (k + i)) = false) →
      (∃ r, outs (k + m) = JudgeOutcome.result r ∧ r.total_tests ≠ 0 ∧ r.passed = true) →
      st.iteration + m ≤ 10 → m + 1 ≤ fuel →
      (runLoop root ios llms outs fuel k st fs).1.status = Status.success ∧
      (runLoop root ios llms outs fuel k st fs).1.iteration = st.iteration + m ∧
      (runLoop root ios llms outs fuel k st fs).2.2 = k + (m + 1) := by
  intro m
  induction m with
  | zero =>
      intro k fuel st fs _ hpass hceil hfu
      obtain ⟨f, rfl⟩ : ∃ f, fuel = f + 1 := ⟨fuel - 1, by omega⟩
      obtain ⟨r, hr, h0, hp⟩ := hpass
      have hs2 : (judge_node (outs k)
          (fixer_node root (ios k) (llms k) st fs).1).status = Status.success := by
        rw [show outs k = JudgeOutcome.result r by simpa using hr]
        exact judge_status_of_passed r _ h0 hp
      rw [runLoop_step_stop root ios llms outs f k st fs (by simp [hs2])]
      refine ⟨hs2, ?_, rfl⟩
      rw [judge_preserves_iteration,
        (fixer_preserves_ctrl root (ios k) (llms k) st fs).1]
      omega
  | succ m ih =>
      intro k fuel st fs hfail hpass hceil hfu
      obtain ⟨f, rfl⟩ : ∃ f, fuel = f + 1 := ⟨fuel - 1, by omega⟩
      have hit1 : (fixer_node root (ios k) (llms k) st fs).1.iteration = st.iteration := by
        rw [(fixer_preserves_ctrl root (ios k) (llms k) st fs).1]
      have hs2 : (judge_node (outs k)
          (fixer_node root (ios k) (llms k) st fs).1).status = Status.retry := by
        have hk : outcomePassed (outs k) = false := by
          simpa using hfail 0 (by omega)
        rw [judge_status_of_notPassed _ _ hk, hit1, if_pos (by omega)]
      rw [runLoop_step_retry root ios llms outs f k st fs hs2]
      have hx : (judge_node (outs k)
          (fixer_node root (ios k) (llms k) st fs).1).iteration = st.iteration := by
        rw [judge_preserves_iteration, hit1]
      have hnext : ({ judge_node (outs k) (fixer_node root (ios k) (llms k) st fs).1 with
          iteration :=
            (judge_node (outs k)
              (fixer_node root (ios k) (llms k) st fs).1).iteration + 1 } :
          RefactorState).iteration = st.iteration + 1 := by
        show (judge_node (outs k)
          (fixer_node root (ios k) (llms k) st fs).1).iteration + 1 = st.iteration + 1
        rw [hx]
      have hfail2 : ∀ i, i < m → outcomePassed (outs ((k + 1) + i)) = false := by
        intro i hi
        rw [show (k + 1) + i = k + (i + 1) by omega]
        exact hfail (i + 1) (by omega)
      have hpass2 : ∃ r, outs ((k + 1) + m) = JudgeOutcome.result r ∧
          r.total_tests ≠ 0 ∧ r.passed = true := by
        rw [show (k + 1) + m = k + (m + 1) by omega]
        exact hpass
      have hres := ih (k + 1) f _ ((fixer_node root (ios k) (llms k) st fs).2)
        hfail2 hpass2 (by rw [hnext]; omega) (by omega)
      refine ⟨hres.1, ?_, ?_⟩
      · rw [hres.2.1, hnext]
        omega
      · rw [hres.2.2]
        omega

/- ----------------------------------------------------------------- -/
/- Claims about the path guard and the confined file store.          -/
/- ----------------------------------------------------------------- -/

/-- C2: for every path whose resolved absolute form is not the sandbox
root or a descendant of it — including a path on a different drive and a
lexical sibling sharing a string prefix with the root — the guard fails
with a violation (it never succeeds and never crashes, being total);
for every path inside the root it returns the path's absolute form. -/
theorem c2_path_guard_confinement :
    ∀ (root p : AbsPath),
      (isInside root p = true → _validate_path root p = Except.ok p) ∧
      (isInside root p = false → ∃ e, _validate_path root p = Except.error e) := by
  intro root p
  exact ⟨validate_ok_of_inside root p, validate_err_of_not_inside root p⟩

theorem c2_path_guard_confinement_witness :
    (∃ e, _validate_path (AbsPath.mk "" ["s"]) (AbsPath.mk "" ["sandbox2", "x"]) =
       Except.error e) ∧
    _validate_path sRoot sFile = Except.ok sFile :=
  ⟨(c2_path_guard_confinement (AbsPath.mk "" ["s"]) (AbsPath.mk "" ["sandbox2", "x"])).2
      (by decide),
   (c2_path_guard_confinement sRoot sFile).1 (by decide)⟩

/-- C10: the guard recomputes its confinement root on every call as the
absolute form of the relative name "sandbox" under the current working
directory, so there are a path and two working directories such that the
same path is accepted under one directory and rejected under the other:
the verdict is not a function of the path argument alone. -/
theorem c10_guard_depends_on_cwd :
    ∃ (p c1 c2 : AbsPath),
      exOk (validateFromCwd c1 p) = true ∧ exOk (validateFromCwd c2 p) = false := by
  refine ⟨AbsPath.mk "" ["a", "sandbox", "f.py"], AbsPath.mk "" ["a"],
    AbsPath.mk "" ["b"], ?_, ?_⟩ <;> decide

/-- C7: for every path inside the sandbox and every text content —
including the empty string and content containing the file-separator
character as text — writing then reading returns exactly that content. -/
theorem c7_write_read_roundtrip :
    ∀ (root p : AbsPath) (fs : FS) (c : String),
      isInside root p = true →
      read_file root (write_file root none fs p c).2 p = c := by
  intro root p fs c h
  have hv := validate_ok_of_inside root p h
  simp [read_file, write_file, hv, writeFS, makedirs, lookupFile, lookupIn]

theorem c7_write_read_roundtrip_witness :
    read_file sRoot (write_file sRoot none emptyFS sFile "x = 1/2").2 sFile = "x = 1/2" ∧
    read_file sRoot (write_file sRoot none emptyFS sFile "").2 sFile = "" :=
  ⟨c7_write_read_roundtrip sRoot sFile emptyFS "x = 1/2" (by decide),
   c7_write_read_roundtrip sRoot sFile emptyFS "" (by decide)⟩

def sEvil : AbsPath := ⟨"", ["repo", "sandbox-evil", "f.py"]⟩

/-- C8: a write inside the sandbox creates the missing parent directory
and reports the "Success" indicator with the content stored; a write
outside the sandbox returns the failure outcome carrying the guard's
violation message through to the caller without touching the
filesystem; a write hitting an I/O error returns a descriptive failure
string embedding the exception text. -/
theorem c8_write_outcomes :
    ∀ (root p : AbsPath) (fs : FS) (c : String),
      (isInside root p = true →
        (write_file root none fs p c).1 = "Success" ∧
        parentOf p ∈ (write_file root none fs p c).2.dirs ∧
        lookupFile (write_file root none fs p c).2 p = some c) ∧
      (∀ ioFault, isInside root p = false →
        ∃ e, _validate_path root p = Except.error e ∧
          (write_file root ioFault fs p c).1 =
            "Error writing file " ++ renderPath p ++ ": " ++ e ∧
          (write_file root ioFault fs p c).2 = fs) ∧
      (∀ msg, isInside root p = true →
        (write_file root (some msg) fs p c).1 =
          "Error writing file " ++ renderPath p ++ ": " ++ msg ∧
        lookupFile (write_file root (some msg) fs p c).2 p = lookupFile fs p) := by
  intro root p fs c
  refine ⟨?_, ?_, ?_⟩
  · intro h
    have hv := validate_ok_of_inside root p h
    refine ⟨?_, ?_, ?_⟩
    · simp [write_file, hv]
    · simpa [write_file, hv, writeFS] using parent_mem_makedirs fs (parentOf p)
    · simp [write_file, hv, writeFS, makedirs, lookupFile, lookupIn]
  · intro ioFault h
    obtain ⟨e, he⟩ := validate_err_of_not_inside root p h
    exact ⟨e, he, by simp [write_file, he], by simp [write_file, he]⟩
  · intro msg h
    have hv := validate_ok_of_inside root p h
    exact ⟨by simp [write_file, hv], by simp [write_file, hv, makedirs, lookupFile]⟩

theorem c8_write_outcomes_witness :
    (write_file sRoot none emptyFS sFile "pass").1 = "Success" ∧
    parentOf sFile ∈ (write_file sRoot none emptyFS sFile "pass").2.dirs ∧
    (∃ e, _validate_path sRoot sEvil = Except.error e ∧
      (write_file sRoot none emptyFS sEvil "pass").1 =
        "Error writing file " ++ renderPath sEvil ++ ": " ++ e ∧
      (write_file sRoot none emptyFS sEvil "pass").2 = emptyFS) ∧
    (write_file sRoot (some "disk full") emptyFS sFile "pass").1 =
      "Error writing file " ++ renderPath sFile ++ ": " ++ "disk full" :=
  ⟨((c8_write_outcomes sRoot sFile emptyFS "pass").1 (by decide)).1,
   ((c8_write_outcomes sRoot sFile emptyFS "pass").1 (by decide)).2.1,
   ((c8_write_outcomes sRoot sEvil emptyFS "pass").2.1 none (by decide)),
   (((c8_write_outcomes sRoot sFile emptyFS "pass").2.2 "disk full" (by decide)).1)⟩

/- ----------------------------------------------------------------- -/
/- Claims about the iteration state machine and the test parser.     -/
/- ----------------------------------------------------------------- -/

/-- C1: the iteration counter starts at 1 on entry and is bumped exactly
once per retry transition of should_continue and never by the auditor,
fixer or judge nodes; consequently, with validation outcomes that never
pass, the loop performs exactly 10 Mutate/Validate cycles and ends at
iteration 10 with status max_iterations, and with validation first
passing on the 3rd attempt it performs exactly 3 cycles and ends with
status success at iteration 3. -/
theorem c1_iteration_state_machine :
    (∀ llm fp orig, (auditor_node llm (initial_state fp orig)).iteration = 1 ∧
       (auditor_node llm (initial_state fp orig)).status = Status.in_progress) ∧
    (∀ st : RefactorState, (should_continue st).2.iteration =
       (if st.status = Status.retry then st.iteration + 1 else st.iteration)) ∧
    (∀ root ios llms outs fuel (st : RefactorState) fs,
       (∀ n, outcomePassed (outs n) = false) → st.iteration = 1 → 10 ≤ fuel →
       (runLoop root ios llms outs fuel 0 st fs).1.iteration = 10 ∧
       (runLoop root ios llms outs fuel 0 st fs).1.status = Status.max_iterations ∧
       (runLoop root ios llms outs fuel 0 st fs).2.2 = 10) ∧
    (∀ root ios llms fuel (st : RefactorState) fs,
       st.iteration = 1 → 3 ≤ fuel →
       (runLoop root ios llms passOnThird fuel 0 st fs).1.iteration = 3 ∧
       (runLoop root ios llms passOnThird fuel 0 st fs).1.status = Status.success ∧
       (runLoop root ios llms passOnThird fuel 0 st fs).2.2 = 3) := by
  refine ⟨?_, ?_, ?_, ?_⟩
  · intro llm fp orig
    cases llm <;> exact ⟨rfl, rfl⟩
  · intro st
    by_cases h : st.status = Status.retry <;> simp [should_continue, h]
  · intro root ios llms outs fuel st fs hfail hit hfu
    have h := runLoop_all_fail root ios llms outs hfail 9 (by omega) fuel 0 st fs
      (by omega) (by omega)
    exact ⟨h.1, h.2.1, by rw [h.2.2]⟩
  · intro root ios llms fuel st fs hit hfu
    have h := runLoop_pass_at root ios llms passOnThird 2 0 fuel st fs
      (by intro i hi; interval_cases i <;> decide)
      ⟨passingOutcome, by decide, by decide, rfl⟩
      (by omega) (by omega)
    exact ⟨by rw [h.2.1, hit], h.1, h.2.2⟩

theorem c1_iteration_state_machine_witness :
    (runLoop sRoot (fun _ => none) (fun _ => Except.ok "code")
        (fun _ => JudgeOutcome.result failingOutcome) 12 0
        (initial_state sFile "src") emptyFS).1.status = Status.max_iterations ∧
    (runLoop sRoot (fun _ => none) (fun _ => Except.ok "code") passOnThird 12 0
        (initial_state sFile "src") emptyFS).1.iteration = 3 :=
  ⟨(c1_iteration_state_machine.2.2.1 sRoot (fun _ => none) (fun _ => Except.ok "code")
      (fun _ => JudgeOutcome.result failingOutcome) 12
      (initial_state sFile "src") emptyFS (fun _ => rfl) rfl (by omega)).2.1,
   (c1_iteration_state_machine.2.2.2 sRoot (fun _ => none) (fun _ => Except.ok "code")
      12 (initial_state sFile "src") emptyFS rfl (by omega)).1⟩

/-- C3: when the parsed test outcome has zero collected tests, the judge
assigns retry below the ceiling and max_iterations at it — never
success — and the parser itself never reports an overall pass for a
zero-collected run. -/
theorem c3_zero_collected_not_success :
    (∀ (r : PytestResult) (st : RefactorState), r.total_tests = 0 →
       (judge_node (JudgeOutcome.result r) st).status =
         (if st.iteration < 10 then Status.retry else Status.max_iterations) ∧
       (judge_node (JudgeOutcome.result r) st).status ≠ Status.success) ∧
    (∀ root onDisk proc p, (run_pytest root onDisk proc p).total_tests = 0 →
       (run_pytest root onDisk proc p).passed = false) := by
  constructor
  · intro r st h
    constructor
    · simp [judge_node, h]
    · simp only [judge_node, h, if_pos]
      split <;> simp
  · intro root onDisk proc p h
    cases hv : _validate_path root p with
    | error e =>
        rw [run_pytest_guard_error_eq root onDisk proc p e hv]
        rfl
    | ok safe =>
        cases hd : onDisk safe with
        | false =>
            rw [run_pytest_notfound_eq root onDisk proc p safe hv hd]
            rfl
        | true =>
            cases proc with
            | timedOut c =>
                rw [run_pytest_timeout_eq root onDisk c p safe hv hd]
                rfl
            | raised m =>
                rw [run_pytest_raised_eq root onDisk m p safe hv hd]
                rfl
            | completed rc out err =>
                rw [run_pytest_completed_eq root onDisk rc out err p safe hv hd] at h ⊢
                dsimp only at h ⊢
                rw [h]
                simp

theorem c3_zero_collected_not_success_witness :
    (judge_node (JudgeOutcome.result initPytestResult)
        (initial_state sFile "x")).status ≠ Status.success ∧
    (run_pytest sRoot allOnDisk
        (ProcResult.completed 2 "no tests ran in 0.01s" "") sFile).passed = false :=
  ⟨((c3_zero_collected_not_success.1 initPytestResult (initial_state sFile "x")) rfl).2,
   c3_zero_collected_not_success.2 sRoot allOnDisk
     (ProcResult.completed 2 "no tests ran in 0.01s" "") sFile (by decide)⟩

/-- Verbose pytest output carrying six FAILED blocks. -/
def sixFailOut : String :=
  joinWith "\n"
    ["FAILED t.py::test_1", "FAILED t.py::test_2", "FAILED t.py::test_3",
     "FAILED t.py::test_4", "FAILED t.py::test_5", "FAILED t.py::test_6"]

set_option maxRecDepth 8000 in
/-- C4 counterexample: the parser run_pytest itself does NOT cap the
failures list to 5 — on an input with six FAILED blocks it returns all
six blocks. -/
theorem c4_parser_cap_counterexample :
    ¬ ((run_pytest sRoot allOnDisk (ProcResult.completed 1 sixFailOut "")
        sFile).failures.length ≤ 5) := by
  decide

/-- C4 (amended): the parser returns the full, uncapped failures list;
the first-5 cap is applied downstream in judge_node, whose state update
is a function of only the failure-count, total, pass flag, raw output
and the FIRST FIVE failure blocks — blocks beyond the fifth are never
consulted. -/
theorem c4_cap_applied_in_judge :
    ∀ (st : RefactorState) (r r2 : PytestResult),
      r.total_tests = r2.total_tests → r.failed_tests = r2.failed_tests →
      r.passed = r2.passed → r.output = r2.output →
      r.failures.take 5 = r2.failures.take 5 →
      judge_node (JudgeOutcome.result r) st = judge_node (JudgeOutcome.result r2) st := by
  intro st r r2 h1 h2 h3 h4 h5
  simp only [judge_node, h1, h2, h3, h4, h5]

theorem c4_cap_applied_in_judge_witness :
    judge_node (JudgeOutcome.result
      { passed := false, total_tests := 2, passed_tests := 0, failed_tests := 2,
        failures := ["a", "b", "c", "d", "e", "f"], output := "o",
        success := true, error := "" }) (initial_state sFile "s") =
    judge_node (JudgeOutcome.result
      { passed := false, total_tests := 2, passed_tests := 0, failed_tests := 2,
        failures := ["a", "b", "c", "d", "e", "g"], output := "o",
        success := true, error := "" }) (initial_state sFile "s") :=
  c4_cap_applied_in_judge (initial_state sFile "s") _ _ rfl rfl rfl rfl (by decide)

/-- C5: the parsed counts always satisfy collected = passed + failed
(all counts being naturals, hence non-negative), and for a completed
subprocess run on a validated existing file the overall pass flag holds
exactly when the exit code is zero, no failures were counted, and at
least one test was collected. -/
theorem c5_parser_count_invariants :
    ∀ root onDisk proc p,
      ((run_pytest root onDisk proc p).total_tests =
        (run_pytest root onDisk proc p).passed_tests +
          (run_pytest root onDisk proc p).failed_tests) ∧
      (∀ (rc : Int) (out err : String), proc = ProcResult.completed rc out err →
        _validate_path root p = Except.ok p → onDisk p = true →
        ((run_pytest root onDisk proc p).passed = true ↔
          rc = 0 ∧ (run_pytest root onDisk proc p).failed_tests = 0 ∧
            0 < (run_pytest root onDisk proc p).total_tests)) := by
  intro root onDisk proc p
  constructor
  · cases hv : _validate_path root p with
    | error e =>
        rw [run_pytest_guard_error_eq root onDisk proc p e hv]
        rfl
    | ok safe =>
        cases hd : onDisk safe with
        | false =>
            rw [run_pytest_notfound_eq root onDisk proc p safe hv hd]
            rfl
        | true =>
            cases proc with
            | timedOut c =>
                rw [run_pytest_timeout_eq root onDisk c p safe hv hd]
                rfl
            | raised m =>
                rw [run_pytest_raised_eq root onDisk m p safe hv hd]
                rfl
            | completed rc out err =>
                rw [run_pytest_completed_eq root onDisk rc out err p safe hv hd]
  · intro rc out err hp hv hd
    subst hp
    rw [run_pytest_completed_eq root onDisk rc out err p p hv hd]
    dsimp only
    simp [Bool.and_eq_true, decide_eq_true_eq, and_assoc]

theorem c5_parser_count_invariants_witness :
    (run_pytest sRoot allOnDisk
      (ProcResult.completed 0 "2 passed in 1s" "") sFile).passed = true :=
  ((c5_parser_count_invariants sRoot allOnDisk
      (ProcResult.completed 0 "2 passed in 1s" "") sFile).2
    0 "2 passed in 1s" "" rfl (by rfl) rfl).mpr
    ⟨rfl, by decide, by decide⟩

/-- C6: when the Mutate (fixer) collaborator faults, the node leaves the
whole state — in particular fixed_code — and the filesystem untouched,
and the pipeline still proceeds to the Validate (judge) stage on that
unchanged state. -/
theorem c6_mutate_fault_leaves_content :
    ∀ (root : AbsPath) (ioFault : Option String) (e : String)
      (o : JudgeOutcome) (st : RefactorState) (fs : FS),
      fixer_node root ioFault (Except.error e) st fs = (st, fs) ∧
      pipelineCycle root ioFault (Except.error e) o st fs = (judge_node o st, fs) := by
  intro root ioFault e o st fs
  exact ⟨rfl, rfl⟩

/-- C9 counterexample: on a subprocess timeout with nonempty partial
output captured before expiry, the runner's rawOutput consists of the
timeout marker alone — the partial output is NOT preserved in it. -/
theorem c9_timeout_partial_output_counterexample :
    (run_pytest sRoot allOnDisk (ProcResult.timedOut "PARTIAL CAPTURED OUTPUT")
        sFile).success = false ∧
    (run_pytest sRoot allOnDisk (ProcResult.timedOut "PARTIAL CAPTURED OUTPUT")
        sFile).error = "Pytest execution timed out" ∧
    strContains
      (run_pytest sRoot allOnDisk (ProcResult.timedOut "PARTIAL CAPTURED OUTPUT")
        sFile).output "PARTIAL CAPTURED OUTPUT" = false := by
  refine ⟨?_, ?_, ?_⟩ <;> decide

/-- C9 (amended): on a checker-subprocess timeout the runner returns
(rather than hanging or raising) with executed=false and an
executionError indicating the timeout, and rawOutput equal to the
timeout marker appended to the output accumulated in the result so far
— which is still empty at that point, the subprocess's partial output
being discarded. -/
theorem c9_timeout_returns_marker_only :
    ∀ (root : AbsPath) (onDisk : AbsPath → Bool) (capturedOut : String) (p : AbsPath),
      _validate_path root p = Except.ok p → onDisk p = true →
      (run_pytest root onDisk (ProcResult.timedOut capturedOut) p).success = false ∧
      (run_pytest root onDisk (ProcResult.timedOut capturedOut) p).error =
        "Pytest execution timed out" ∧
      (run_pytest root onDisk (ProcResult.timedOut capturedOut) p).output =
        initPytestResult.output ++ "\nTimeout reached." := by
  intro root onDisk c p hv hd
  rw [run_pytest_timeout_eq root onDisk c p p hv hd]
  exact ⟨rfl, rfl, rfl⟩

theorem c9_timeout_returns_marker_only_witness :
    (run_pytest sRoot allOnDisk (ProcResult.timedOut "some text") sFile).error =
      "Pytest execution timed out" :=
  (c9_timeout_returns_marker_only sRoot allOnDisk "some text" sFile
    (by rfl) rfl).2.1
